import Mathlib

/-!
Verification development for the per-connection fetch-and-stream WebSocket
service in `src/main.rs` (crate `rust-frontend-practice`).

The embedding is shallow:
* `CandleData` and `PriceUpdate` mirror the serde structs; the Rust `f64`
  fields are modelled as rationals (no arithmetic is ever performed on
  them, only serialization round-trips), the `u64` timestamp as a `Nat`
  with an explicit `< 2^64` bound where the round-trip needs it.
* `fetch_ohlcv_data` is embedded as a pure function of the behaviour of
  the external `python3 scripts/fetch_ohlcv.py` process (how long it runs,
  its exit status, stdout, stderr).  JSON is modelled at the level of a
  standard JSON value tree; `parseCandles` mirrors the derived serde
  deserializer for `Vec<CandleData>` (field lookup with duplicate-field
  rejection, unknown fields ignored) and `encodeCandle` the derived
  serializer.
* `handle_socket` is embedded as a function from the initial-fetch
  outcome and the sequence of events the streaming `select!` loop sees to
  the ordered list of attempted socket sends plus the resulting
  connection state.  The success of each attempted send is an input
  (carried on the event / passed as an argument); the Rust code branches
  on that success only at the timer-tick `PriceUpdate` send, and the
  model branches in exactly the same places.
-/

/-- Mirror of the Rust struct `CandleData` (`open` is a Lean keyword, the
field is called `open_`). -/
structure CandleData where
  timestamp : Nat
  open_ : Rat
  high : Rat
  low : Rat
  close : Rat
  volume : Rat
deriving DecidableEq, Repr

/-- Mirror of the Rust struct `PriceUpdate`. -/
structure PriceUpdate where
  candles : List CandleData
deriving DecidableEq, Repr

/-- JSON value tree, the codomain of a successful `serde_json` parse of the
subprocess stdout. -/
inductive Json where
  | num (q : Rat)
  | str (s : String)
  | bool (b : Bool)
  | null
  | arr (xs : List Json)
  | obj (fields : List (String × Json))

/-- Field lookup as the derived serde deserializer performs it: exactly one
occurrence of the key is accepted (a missing field and a duplicate field are
both deserialization errors), unknown fields are ignored. -/
def getUnique (fs : List (String × Json)) (k : String) : Option Json :=
  match fs.filter (fun p => p.1 == k) with
  | [v] => some v.2
  | _ => none

/-- Deserializing a JSON value into a Rust `u64`: a number that is a
non-negative integer below `2^64`. -/
def asU64 (j : Json) : Option Nat :=
  match j with
  | .num q => if q.den = 1 ∧ 0 ≤ q.num ∧ q.num < 2 ^ 64 then some q.num.toNat else none
  | _ => none

/-- Deserializing a JSON value into a Rust `f64`: any JSON number. -/
def asF64 (j : Json) : Option Rat :=
  match j with
  | .num q => some q
  | _ => none

/-- The derived serde deserializer for one `CandleData`: an object with the
six numeric fields. -/
def parseCandle (j : Json) : Option CandleData :=
  match j with
  | .obj fs => do
      let t ← getUnique fs ("timestamp") >>= asU64
      let o ← getUnique fs ("open") >>= asF64
      let h ← getUnique fs ("high") >>= asF64
      let l ← getUnique fs ("low") >>= asF64
      let c ← getUnique fs ("close") >>= asF64
      let v ← getUnique fs ("volume") >>= asF64
      some (CandleData.mk t o h l c v)
  | _ => none

/-- The derived serde deserializer for `Vec<CandleData>`: a JSON array each
of whose elements parses as a candle. -/
def parseCandles (j : Json) : Option (List CandleData) :=
  match j with
  | .arr xs => xs.mapM parseCandle
  | _ => none

/-- The derived serde serializer for one `CandleData`: fields in declaration
order. -/
def encodeCandle (c : CandleData) : Json :=
  .obj [(("timestamp"), .num (c.timestamp : Rat)), (("open"), .num c.open_),
    (("high"), .num c.high), (("low"), .num c.low),
    (("close"), .num c.close), (("volume"), .num c.volume)]

/-- What the subprocess left on stdout, classified by how far decoding can
get: `String::from_utf8` fails, or the text is not JSON, or it is the JSON
value `j`. -/
inductive StdoutData where
  | invalidUtf8
  | notJson (s : String)
  | json (j : Json)

/-- Outcome of `Command::new("python3").arg(..).output()` once it resolves:
either the spawn itself failed with an `io::Error`, or the process exited
with the given status, stdout and (lossily decoded) stderr text. -/
inductive ProcResult where
  | spawnFailure (msg : String)
  | exited (success : Bool) (stdout : StdoutData) (stderrText : String)

/-- Behaviour of one invocation of the external process: how many seconds
the `output()` future takes to resolve (`none` = it never resolves) and, if
it resolves, with what. -/
structure ProcBehavior where
  duration : Option Nat
  result : ProcResult

/-- The `tokio::time::timeout(Duration::from_secs(10), ..)` wrapper fires
iff the `output()` future has not resolved within 10 seconds. -/
def timesOut (p : ProcBehavior) : Bool :=
  match p.duration with
  | none => true
  | some d => 10 < d

/-- Error taxonomy of the fetch gateway.  In the source every failure is a
`Box<dyn Error>`: `timeout` is the `Elapsed` error of the outer
`timeout(..)` (first `?`), `spawnFailure` the `io::Error` of `output()`
(second `?`), `processFailure` the formatted string built from the captured
stderr on a non-zero exit, `invalidUtf8` the `FromUtf8Error` of
`String::from_utf8(output.stdout)?` and `invalidJson` the `serde_json`
error of `from_str`. -/
inductive FetchError where
  | timeout
  | spawnFailure (msg : String)
  | processFailure (msg : String)
  | invalidUtf8
  | invalidJson
deriving DecidableEq, Repr

/-- Shallow embedding of `fetch_ohlcv_data` as a function of the behaviour
of the spawned process.  It follows the source line by line: 10-second outer
timeout, then the two `?`s, then the non-zero-exit check (which formats the
captured stderr into the error and returns before stdout is looked at),
then UTF-8 decoding of stdout, then JSON deserialization. -/
def fetch_ohlcv_data (p : ProcBehavior) : Except FetchError (List CandleData) :=
  if timesOut p then .error .timeout
  else
    match p.result with
    | .spawnFailure m => .error (.spawnFailure m)
    | .exited success stdout stderrText =>
      if !success then
        .error (.processFailure (String.append ("Python script error: ") stderrText))
      else
        match stdout with
        | .invalidUtf8 => .error .invalidUtf8
        | .notJson _ => .error .invalidJson
        | .json j =>
          match parseCandles j with
          | some candles => .ok candles
          | none => .error .invalidJson

/-- Connection states of the supervisor, as named by the spec.
`handle_socket` only ever ends an execution prefix in `streaming` (events
exhausted, loop still running) or `closed` (the loop `break` / return). -/
inductive ConnState where
  | streaming
  | closed
deriving DecidableEq, Repr

/-- A frame the supervisor attempts to send on the socket: a text frame
carrying the JSON serialization of a `PriceUpdate`, or a `Pong` control
frame.  (`serde_json::to_string` of a `PriceUpdate` cannot fail, so the
`if let Ok(json)` guards always take the `Ok` branch.) -/
inductive OutMsg where
  | update (u : PriceUpdate)
  | pong
deriving DecidableEq, Repr

/-- Outcome of the initial fetch as observed by
`timeout(Duration::from_secs(15), initial_fetch).await`:
`fetched r`   = `Ok(Ok(r))`, the spawned task ran `fetch_ohlcv_data` to
                completion within 15 s with result `r`;
`taskFailed`  = `Ok(Err(_))`, the spawned task itself failed (`JoinError`);
`timedOut`    = `Err(_)`, the outer 15-second timeout elapsed. -/
inductive InitialOutcome where
  | fetched (r : Except FetchError (List CandleData))
  | taskFailed
  | timedOut

/-- What `socket.recv()` produced when the `select!` loop polled it:
`close` = `Some(Ok(Message::Close(_)))`, `ping` = `Some(Ok(Message::Ping(_)))`,
`other` = any other `Some(Ok(_))` frame, `sockError` = `Some(Err(_))`,
`ended` = `None`. -/
inductive RecvResult where
  | close
  | ping
  | other
  | sockError
  | ended
deriving DecidableEq, Repr

/-- One resolution of the streaming loop's `tokio::select!`: either the
interval ticked powering exactly one awaited `fetch_ohlcv_data` call whose
result is `r` (`sendOk` tells whether the `PriceUpdate` send, if one is
attempted, succeeds), or `socket.recv()` resolved (`sendOk` tells whether
the `Pong` reply, if one is attempted, succeeds). -/
inductive LoopEvent where
  | tick (r : Except FetchError (List CandleData)) (sendOk : Bool)
  | recv (rr : RecvResult) (sendOk : Bool)

/-- The streaming `loop { tokio::select! { .. } }` of `handle_socket`, run
over a finite prefix of resolved events.  Returns the attempted sends in
order and the state after the prefix: `closed` if some event hit a `break`,
`streaming` if the prefix was consumed with the loop still live.
Branching matches the source arm by arm:
* tick, `Ok(candles)` non-empty: send the update, `break` iff the send
  errs;
* tick, `Ok` empty or `Err`: log only, next iteration;
* recv `Close`, recv error, stream end: `break`;
* recv `Ping`: send `Pong`, discard the send result, next iteration;
* recv other frame: next iteration. -/
def runLoop (events : List LoopEvent) : List OutMsg × ConnState :=
  match events with
  | [] => ([], .streaming)
  | .tick (.ok candles) sendOk :: rest =>
    if candles.isEmpty then runLoop rest
    else if sendOk then
      ((OutMsg.update (PriceUpdate.mk candles)) :: (runLoop rest).1, (runLoop rest).2)
    else ([OutMsg.update (PriceUpdate.mk candles)], .closed)
  | .tick (.error _) _ :: rest => runLoop rest
  | .recv .close _ :: _ => ([], .closed)
  | .recv .ping _ :: rest => (OutMsg.pong :: (runLoop rest).1, (runLoop rest).2)
  | .recv .other _ :: rest => runLoop rest
  | .recv .sockError _ :: _ => ([], .closed)
  | .recv .ended _ :: _ => ([], .closed)

/-- The sends `handle_socket` attempts while handling the settled initial
fetch, one per `match` arm of the source:
* `Ok(Ok(Ok(candles))) if !candles.is_empty()` sends the update;
* `Ok(Ok(Err(e)))` logs and sends an explicit empty-candle update;
* `Ok(Err(_))` and `Err(_)` log only.
The guarded first arm does not cover `Ok(Ok(Ok(vec![])))` and no later arm
matches it either: the `match` is non-exhaustive there (rustc error E0004),
so the model returns `none` for a successful empty initial fetch. -/
def initialPhaseSends (init : InitialOutcome) : Option (List OutMsg) :=
  match init with
  | .fetched (.ok candles) =>
    if candles.isEmpty then none
    else some [OutMsg.update (PriceUpdate.mk candles)]
  | .fetched (.error _) => some [OutMsg.update (PriceUpdate.mk [])]
  | .taskFailed => some []
  | .timedOut => some []

/-- Shallow embedding of `handle_socket`.  Inputs: whether the ack send
succeeds, whether the initial-phase send (if any) succeeds, the
initial-fetch outcome, and the resolved streaming-loop events.  Output:
the ordered attempted sends and the final state, or `none` on the
uncovered empty-success initial fetch.  The source structure is sequential:
the ack `PriceUpdate { candles: Vec::new() }` send comes first (its result
discarded), then the initial fetch is awaited — the socket is not read
during this phase — and its result handled (those send results also
discarded), and only then does the `select!` loop start polling
`socket.recv()`. -/
def handle_socket (_ackSendOk : Bool) (_initSendOk : Bool)
    (init : InitialOutcome) (events : List LoopEvent) :
    Option (List OutMsg × ConnState) :=
  match initialPhaseSends init with
  | none => none
  | some ms =>
    some ((OutMsg.update (PriceUpdate.mk [])) :: ms ++ (runLoop events).1,
      (runLoop events).2)

/-- The concrete candle of the spec scenario, with `low`/`close` scaled to
integer values so that kernel evaluation of `Rat` literals stays
gcd-free. -/
def c0 : CandleData := CandleData.mk 1000 1 2 1 2 100

/-- A loop event on which the source sends nothing and keeps looping: a
timer tick whose fetch came back empty or with an error.  Used to phrase
"no message until the next successful non-empty fetch". -/
def isQuietTick (e : LoopEvent) : Bool :=
  match e with
  | .tick (.ok cs) _ => cs.isEmpty
  | .tick (.error _) _ => true
  | .recv _ _ => false

theorem parseCandle_encodeCandle (c : CandleData) (h : c.timestamp < 2 ^ 64) :
    parseCandle (encodeCandle c) = some c := by
  have h' : c.timestamp < 18446744073709551616 := by norm_num at h; exact h
  simp [parseCandle, encodeCandle, getUnique, asU64, asF64, List.filter, bind, h']

theorem parseCandles_encode (l : List CandleData)
    (h : ∀ c ∈ l, c.timestamp < 2 ^ 64) :
    parseCandles (.arr (l.map encodeCandle)) = some l := by
  simp only [parseCandles]
  induction l with
  | nil => rfl
  | cons c t ih =>
    simp only [List.map_cons, List.mapM_cons]
    rw [parseCandle_encodeCandle c (h c (List.mem_cons_self c t)),
      ih (fun x hx => h x (List.mem_cons_of_mem c hx))]
    rfl

theorem runLoop_quiet_append (evs rest : List LoopEvent)
    (h : ∀ e ∈ evs, isQuietTick e = true) :
    runLoop (evs ++ rest) = runLoop rest := by
  induction evs with
  | nil => rfl
  | cons e t ih =>
    have he := h e (List.mem_cons_self e t)
    have ht := ih (fun x hx => h x (List.mem_cons_of_mem e hx))
    match e with
    | .tick (.ok cs) b =>
      simp only [isQuietTick] at he
      rw [List.cons_append]
      simp only [runLoop, he, if_true]
      exact ht
    | .tick (.error err) b =>
      rw [List.cons_append]
      simp only [runLoop]
      exact ht
    | .recv rr b => exact absurd he (by simp [isQuietTick])

theorem runLoop_quiet (evs : List LoopEvent)
    (h : ∀ e ∈ evs, isQuietTick e = true) :
    runLoop evs = ([], .streaming) := by
  have := runLoop_quiet_append evs [] h
  simpa using this

/-- Claim C1 as stated is false at this input: when the initial fetch
settles with a fetch error (here the gateway timeout error surfacing as
`Ok(Ok(Err(e)))`), the supervisor sends a second empty-candle update right
after the ack placeholder, before any timer-driven fetch has run at all. -/
theorem C1_counterexample :
    handle_socket true true (.fetched (.error .timeout)) [] =
      some ([OutMsg.update (PriceUpdate.mk []), OutMsg.update (PriceUpdate.mk [])],
        .streaming) := by
  decide

/-- Claim C1, amended: when the initial fetch times out (outer 15 s) or its
spawned task fails, the client receives nothing after the ack placeholder
through any run of empty/error timer ticks, until the first tick whose
fetch succeeds with non-empty data delivers exactly one update; but when
the initial fetch settles with a fetch error, the supervisor sends one
additional empty-candle update before entering the streaming loop. -/
theorem C1_quiet_after_failed_initial_fetch (a i : Bool) (evs : List LoopEvent)
    (cs : List CandleData) (b : Bool)
    (hq : ∀ e ∈ evs, isQuietTick e = true) (hcs : cs ≠ []) :
    (handle_socket a i .timedOut evs =
        some ([OutMsg.update (PriceUpdate.mk [])], .streaming)
      ∧ handle_socket a i .taskFailed evs =
        some ([OutMsg.update (PriceUpdate.mk [])], .streaming))
    ∧ handle_socket a i .timedOut (evs ++ [.tick (.ok cs) b]) =
        some ([OutMsg.update (PriceUpdate.mk []), OutMsg.update (PriceUpdate.mk cs)],
          if b then ConnState.streaming else ConnState.closed)
    ∧ ∀ e : FetchError, handle_socket a i (.fetched (.error e)) [] =
        some ([OutMsg.update (PriceUpdate.mk []), OutMsg.update (PriceUpdate.mk [])],
          .streaming) := by
  have hquiet := runLoop_quiet evs hq
  have htail := runLoop_quiet_append evs [.tick (.ok cs) b] hq
  have hne : cs.isEmpty = false := by
    cases cs with
    | nil => exact absurd rfl hcs
    | cons x xs => rfl
  refine ⟨⟨?_, ?_⟩, ?_, ?_⟩
  · rw [handle_socket.eq_def]
    simp [initialPhaseSends, hquiet]
  · rw [handle_socket.eq_def]
    simp [initialPhaseSends, hquiet]
  · rw [handle_socket.eq_def]
    simp only [initialPhaseSends, htail]
    cases b <;> simp [runLoop, hne]
  · intro e
    rw [handle_socket.eq_def]
    simp [initialPhaseSends, runLoop]

/-- Witness for the amended C1 at concrete inputs. -/
theorem C1_witness :
    handle_socket true true InitialOutcome.timedOut
        [LoopEvent.tick (Except.error FetchError.timeout) true] =
      some ([OutMsg.update (PriceUpdate.mk [])], ConnState.streaming) :=
  ((C1_quiet_after_failed_initial_fetch true true
    [LoopEvent.tick (Except.error FetchError.timeout) true] [c0] true
    (by decide) (by decide)).1).1

/-- Claim C2 as stated is false at this input: the client closes right
after connecting (the very first inbound event is its `Close` frame), the
initial fetch later resolves with one candle, and the supervisor still
attempts to send that deferred initial-fetch result — the socket is not
read until the streaming loop starts, so the `Close` is processed only
afterwards, and the sends are the ack, then the deferred update, then the
loop breaks. -/
theorem C2_counterexample :
    handle_socket true true (.fetched (.ok [c0])) [.recv .close true] =
      some ([OutMsg.update (PriceUpdate.mk []), OutMsg.update (PriceUpdate.mk [c0])],
        .closed) := by
  decide

/-- Claim C2, amended: a `Close` frame sent immediately after connecting is
handled only once the initial fetch has settled (or its 15-second budget
elapsed) and its result has been handled — including attempting the
deferred send for a non-empty success or the empty-candle send for a fetch
error — after which the first loop iteration processes the `Close` and the
connection transitions to `Closed`. -/
theorem C2_close_processed_after_initial_phase (a i b : Bool)
    (init : InitialOutcome) (ms : List OutMsg)
    (h : initialPhaseSends init = some ms) :
    handle_socket a i init [.recv .close b] =
      some (OutMsg.update (PriceUpdate.mk []) :: ms, .closed) := by
  rw [handle_socket.eq_def, h]
  simp [runLoop]

/-- Witness for the amended C2 at concrete inputs. -/
theorem C2_witness :
    handle_socket true true (InitialOutcome.fetched (Except.ok [c0]))
        [LoopEvent.recv RecvResult.close true] =
      some (OutMsg.update (PriceUpdate.mk []) ::
        [OutMsg.update (PriceUpdate.mk [c0])], ConnState.closed) :=
  C2_close_processed_after_initial_phase true true true
    (InitialOutcome.fetched (Except.ok [c0]))
    [OutMsg.update (PriceUpdate.mk [c0])] (by decide)

/-- Claim C3: the spec requires the connection to reach `Streaming` for
every initial-fetch outcome, including a successful fetch that returned an
empty candle list; but the source `match` on the initial-fetch result has
no arm for `Ok(Ok(Ok(vec![])))` (the only candidate arm is guarded by
`!candles.is_empty()`), so the match is non-exhaustive (rustc E0004) and
the required transition is not implemented for that outcome — the model
has no defined behaviour there. -/
theorem C3_empty_success_uncovered :
    handle_socket true true (.fetched (.ok [])) [] = none := by
  decide

/-- Claim C4: on a fresh connection whose initial fetch resolves in budget
with a non-empty candle list, exactly two messages are sent in order: the
ack placeholder (empty candle list) and then a `PriceUpdate` carrying
exactly the fetched candles. -/
theorem C4_two_messages (a i : Bool) (cs : List CandleData) (h : cs ≠ []) :
    handle_socket a i (.fetched (.ok cs)) [] =
      some ([OutMsg.update (PriceUpdate.mk []), OutMsg.update (PriceUpdate.mk cs)],
        .streaming) := by
  have hne : cs.isEmpty = false := by
    cases cs with
    | nil => exact absurd rfl h
    | cons x xs => rfl
  rw [handle_socket.eq_def]
  simp [initialPhaseSends, hne, runLoop]

/-- Witness for C4 at the spec scenario candle. -/
theorem C4_witness :
    handle_socket true true (InitialOutcome.fetched (Except.ok [c0])) [] =
      some ([OutMsg.update (PriceUpdate.mk []), OutMsg.update (PriceUpdate.mk [c0])],
        ConnState.streaming) :=
  C4_two_messages true true [c0] (by decide)

/-- Claim C5: one timer tick awaits exactly one gateway fetch; a non-empty
success attempts exactly one `PriceUpdate` send and the loop breaks (state
`Closed`) if and only if that send fails; an empty success or a fetch error
sends nothing and the loop state is exactly that of the remaining events
(still `Streaming` if none of them breaks it). -/
theorem C5_tick_step (cs : List CandleData) (b : Bool) (e : FetchError)
    (rest : List LoopEvent) (h : cs ≠ []) :
    runLoop (.tick (.ok cs) b :: rest) =
      (if b then ((OutMsg.update (PriceUpdate.mk cs)) :: (runLoop rest).1, (runLoop rest).2)
       else ([OutMsg.update (PriceUpdate.mk cs)], ConnState.closed))
    ∧ runLoop (.tick (.ok []) b :: rest) = runLoop rest
    ∧ runLoop (.tick (.error e) b :: rest) = runLoop rest := by
  have hne : cs.isEmpty = false := by
    cases cs with
    | nil => exact absurd rfl h
    | cons x xs => rfl
  refine ⟨?_, ?_, ?_⟩
  · cases b <;> simp [runLoop, hne]
  · simp [runLoop]
  · simp [runLoop]

/-- Witness for C5 at concrete inputs. -/
theorem C5_witness :
    runLoop [LoopEvent.tick (Except.ok [c0]) true] =
      ([OutMsg.update (PriceUpdate.mk [c0])], ConnState.streaming) := by
  have h := (C5_tick_step [c0] true FetchError.timeout [] (by decide)).1
  rw [h]
  simp [runLoop]

/-- Claim C6: whenever the process resolves within the 10-second budget
with a non-zero exit status, the fetch returns the process-failure error
built from the captured stderr text, whatever the process wrote on
stdout. -/
theorem C6_nonzero_exit (d : Nat) (stdout : StdoutData) (stderrText : String)
    (h : d ≤ 10) :
    fetch_ohlcv_data (ProcBehavior.mk (some d) (.exited false stdout stderrText)) =
      .error (.processFailure (String.append ("Python script error: ") stderrText)) := by
  have ht : timesOut (ProcBehavior.mk (some d) (.exited false stdout stderrText)) = false := by
    simp [timesOut]
    omega
  rw [fetch_ohlcv_data, ht]
  simp

/-- Witness for C6 at concrete inputs: valid JSON on stdout is ignored. -/
theorem C6_witness :
    fetch_ohlcv_data (ProcBehavior.mk (some 2)
        (.exited false (.json (.arr [encodeCandle c0])) ("boom"))) =
      .error (.processFailure (String.append ("Python script error: ") ("boom"))) :=
  C6_nonzero_exit 2 (.json (.arr [encodeCandle c0])) ("boom") (by decide)

/-- Claim C7: an in-budget, zero-exit invocation whose stdout is the JSON
array encoding of a list of candles is decoded back to exactly that list —
in particular the returned sequence has exactly as many candles as the
array has elements. -/
theorem C7_roundtrip (l : List CandleData) (d : Nat) (st : String)
    (hd : d ≤ 10) (hts : ∀ c ∈ l, c.timestamp < 2 ^ 64) :
    fetch_ohlcv_data (ProcBehavior.mk (some d)
        (.exited true (.json (.arr (l.map encodeCandle))) st)) = .ok l
    ∧ l.length = (l.map encodeCandle).length := by
  have ht : timesOut (ProcBehavior.mk (some d)
      (.exited true (.json (.arr (l.map encodeCandle))) st)) = false := by
    simp [timesOut]
    omega
  refine ⟨?_, by simp⟩
  rw [fetch_ohlcv_data, ht]
  simp [parseCandles_encode l hts]

/-- Witness for C7 at concrete inputs. -/
theorem C7_witness :
    fetch_ohlcv_data (ProcBehavior.mk (some 2)
        (.exited true (.json (.arr ([c0].map encodeCandle))) (""))) =
      .ok [c0] :=
  (C7_roundtrip [c0] 2 ("") (by decide) (by decide)).1

/-- Claim C8: if the process has not resolved within the 10-second budget —
whether it resolves later or never resolves at all — the fetch still
returns, with the timeout error.  Termination itself is by construction:
`fetch_ohlcv_data` is a total function of the process behaviour. -/
theorem C8_timeout (res : ProcResult) (d : Nat) (hd : 10 < d) :
    fetch_ohlcv_data (ProcBehavior.mk (some d) res) = .error .timeout
    ∧ fetch_ohlcv_data (ProcBehavior.mk none res) = .error .timeout := by
  constructor
  · rw [fetch_ohlcv_data]
    simp [timesOut, hd]
  · rw [fetch_ohlcv_data]
    simp [timesOut]

/-- Witness for C8 at concrete inputs. -/
theorem C8_witness :
    fetch_ohlcv_data (ProcBehavior.mk (some 11)
        (.exited true (.json (.arr [])) (""))) = .error .timeout :=
  (C8_timeout (.exited true (.json (.arr [])) ("")) 11 (by decide)).1

/-- Claim C9: a `Ping` received while streaming produces exactly one `Pong`
reply — whether or not that reply send succeeds — and the loop goes on to
process the remaining events exactly as it would have without the ping: the
sends are `Pong` followed by the remaining sends, the final state is the
remaining events' state, and no fetch happens (fetches occur only on tick
events). -/
theorem C9_ping_pong (b : Bool) (rest : List LoopEvent) :
    runLoop (.recv .ping b :: rest) =
      (OutMsg.pong :: (runLoop rest).1, (runLoop rest).2) := by
  simp [runLoop]

/-- Claim C10: failures of the ack send, of the initial-phase send and of
the `Pong` send are discarded and never change what the supervisor does;
the one send whose failure terminates the loop is the timer-tick
`PriceUpdate` send, which on failure ends the run in `Closed` without
processing further events. -/
theorem C10_send_failures (a a2 i i2 : Bool) (init : InitialOutcome)
    (evs : List LoopEvent) (b b2 : Bool) (rest : List LoopEvent)
    (cs : List CandleData) (h : cs ≠ []) :
    handle_socket a i init evs = handle_socket a2 i2 init evs
    ∧ runLoop (.recv .ping b :: rest) = runLoop (.recv .ping b2 :: rest)
    ∧ runLoop (.tick (.ok cs) false :: rest) =
        ([OutMsg.update (PriceUpdate.mk cs)], ConnState.closed) := by
  have hne : cs.isEmpty = false := by
    cases cs with
    | nil => exact absurd rfl h
    | cons x xs => rfl
  refine ⟨rfl, by simp [runLoop], by simp [runLoop, hne]⟩

/-- Witness for C10 at concrete inputs. -/
theorem C10_witness :
    runLoop [LoopEvent.tick (Except.ok [c0]) false] =
      ([OutMsg.update (PriceUpdate.mk [c0])], ConnState.closed) :=
  (C10_send_failures true false true false InitialOutcome.timedOut []
    true false [] [c0] (by decide)).2.2
